import Mathlib

/-!
Verification of the retry-and-normalize data-acquisition pipeline of the
YouTube-Analytics-Pro repository.

The development shallowly embeds the Python core:

* the retry policy engine built on tenacity in
  `website-analyzer-api/app/utils/retry.py` (`create_retry_decorator`,
  `retry_external_calls`) together with the hand-rolled retry loop
  `InstagramClientV2._make_api_request` in `app/utils/instagram_client_v2.py`;
* the count normalizer `CrawlbaseParser.parse_count_string`, the wrapper-body
  extraction `CrawlbaseParser.extract_response_body`, and the profile
  normalizer `CrawlbaseParser.parse_profile_data` in
  `app/utils/crawlbase_parser.py`;
* the orchestrator `InstagramScraper.scrape` in `app/services/instagram.py`
  over the pydantic result models of `app/models/instagram.py`;
* the link-collection loop of `YouTubeScraper.scrape` and the endpoint
  `scrape_youtube` in `app/services/youtube.py` and `app/api/youtube_scraper.py`;
* the engagement computation `InstagramClientV2.calculate_engagement_rate`.

Python machine-level floats are modelled by exact rationals: every mantissa
appearing in the claims under scrutiny is small enough for the two semantics
to agree (this is checked for the concrete inputs used below).
Python exceptions are modelled by an explicit error type and `Except`.
-/

namespace YTAP

/-- Python exception values relevant to the pipeline.  Every constructor
models a class that (transitively) derives from Python `Exception`. -/
inductive PyExc where
  | valueError (msg : String)
  | connectionError (msg : String)
  | timeoutError (msg : String)
  | httpxRequestError (msg : String)
  | validationError (msg : String)
  | exception (msg : String)
deriving DecidableEq, Repr

/-- Python `str(e)` on the modelled exceptions. -/
def pyExcMsg : PyExc → String
  | .valueError m => m
  | .connectionError m => m
  | .timeoutError m => m
  | .httpxRequestError m => m
  | .validationError m => m
  | .exception m => m

/-- Exception classes named in the retry configuration tuples of
`website-analyzer-api/app/utils/retry.py`. -/
inductive PyExcClass where
  | connectionErrorC
  | timeoutErrorC
  | httpxRequestErrorC
  | exceptionC
deriving DecidableEq, Repr

/-- Python `isinstance` on the modelled hierarchy: every modelled exception
is an instance of `Exception`; the leaf classes match exactly. -/
def isInstanceOf : PyExc → PyExcClass → Bool
  | _, .exceptionC => true
  | .connectionError _, .connectionErrorC => true
  | .timeoutError _, .timeoutErrorC => true
  | .httpxRequestError _, .httpxRequestErrorC => true
  | _, _ => false

/-- Retryable-exception tuple of `retry_external_calls`
(`retry.py` lines 82-89): `(ConnectionError, TimeoutError,
httpx.RequestError, Exception)`.  Because `Exception` is included, the
predicate holds for every modelled exception. -/
def retryExternalPred (e : PyExc) : Bool :=
  [PyExcClass.connectionErrorC, PyExcClass.timeoutErrorC,
   PyExcClass.httpxRequestErrorC, PyExcClass.exceptionC].any (isInstanceOf e)

/-- Core loop of a tenacity-`retry` decorated call, as configured by
`create_retry_decorator` (`stop=stop_after_attempt`, `retry=
retry_if_exception_type`, `reraise=True`).  `op i` is the outcome of the
`(i+1)`-st invocation of the wrapped operation.  `fuel` counts the retries
still allowed; the pair returned is (final outcome, number of invocations).
A failure matching the retry predicate consumes fuel and retries; a
non-matching failure is re-raised immediately; with no fuel left the last
outcome is returned or re-raised (`reraise=True`). -/
def tenacityGo (p : PyExc → Bool) (op : Nat → Except PyExc α) :
    Nat → Nat → Except PyExc α × Nat
  | i, 0 => (op i, 1)
  | i, fuel + 1 =>
    match op i with
    | .ok a => (.ok a, 1)
    | .error e =>
      if p e then
        let r := tenacityGo p op (i + 1) fuel
        (r.1, r.2 + 1)
      else (.error e, 1)

/-- Run a tenacity-decorated operation with `stop_after_attempt maxAttempts`,
retry predicate `p` and `reraise=True`, starting at the first attempt. -/
def tenacityRun (p : PyExc → Bool) (maxAttempts : Nat)
    (op : Nat → Except PyExc α) : Except PyExc α × Nat :=
  tenacityGo p op 0 (maxAttempts - 1)

/-- Wait produced by tenacity `wait_exponential(multiplier, min, max)` after
the attempt numbered `attemptNumber` (1-based) has failed: the library
computes `multiplier * 2 ^ (attemptNumber - 1)` and clamps it into
`[max 0 min, max]`.  This is exactly the configuration built by
`create_retry_decorator` (`retry.py` lines 53-64), which passes
`multiplier=backoff_multiplier`, `min=wait_seconds`, `max=max_wait_seconds`
and leaves the exponent base at its default 2. -/
def waitExponential (multiplier minW maxW : ℚ) (attemptNumber : Nat) : ℚ :=
  max (max 0 minW) (min (multiplier * 2 ^ (attemptNumber - 1)) maxW)

/-- Sleep performed before attempt `k` (so after attempt `k - 1` failed) by
the decorator returned by `create_retry_decorator initialWait multiplier
maxWait`. -/
def waitBeforeAttempt (initialWait multiplier maxW : ℚ) (k : Nat) : ℚ :=
  waitExponential multiplier initialWait maxW (k - 1)

/-- Formula stated by the specification for the wait before attempt `k`
(spec section 4.1): the growth starts at `initial_wait`, multiplies by
`backoff_multiplier` per retry, is capped by `max_wait` and clamped at 0.
This definition follows the words of the spec, for comparison with
`waitBeforeAttempt`, which follows the code. -/
def specWaitFormula (initialWait multiplier maxW : ℚ) (k : Nat) : ℚ :=
  max 0 (min (initialWait * multiplier ^ (k - 2)) maxW)

/-- Retry loop of `InstagramClientV2._make_api_request`
(`instagram_client_v2.py` lines 47-73): `for attempt in range(retry_count+1)`
with the last raised/recorded error re-raised after the loop, or a generic
`Exception` when no attempt ran.  `fuel` is the number of loop iterations
remaining; the pair returned is (outcome, number of invocations). -/
def apiRequestGo (op : Nat → Except PyExc α) :
    Nat → Nat → Option PyExc → Except PyExc α × Nat
  | _, 0, last => (.error (last.getD (.exception "API request failed")), 0)
  | i, fuel + 1, _ =>
    match op i with
    | .ok a => (.ok a, 1)
    | .error e =>
      let r := apiRequestGo op (i + 1) fuel (some e)
      (r.1, r.2 + 1)

/-- Entry point of `_make_api_request` with a given `retry_count`
(total invocations on permanent failure: `retry_count + 1`). -/
def makeApiRequest (retryCount : Nat) (op : Nat → Except PyExc α) :
    Except PyExc α × Nat :=
  apiRequestGo op 0 (retryCount + 1) none

/-- Helper: a permanently failing retryable operation consumes all fuel,
is invoked `fuel + 1` times and ends with the error of the last attempt. -/
theorem tenacityGo_allFail {α : Type} (p : PyExc → Bool) (errs : Nat → PyExc)
    (h : ∀ i, p (errs i) = true) :
    ∀ fuel i, tenacityGo p (fun j => (.error (errs j) : Except PyExc α)) i fuel =
      (.error (errs (i + fuel)), fuel + 1) := by
  intro fuel
  induction fuel with
  | zero => intro i; simp [tenacityGo]
  | succ n ih =>
    intro i
    have e : i + (n + 1) = i + 1 + n := by omega
    rw [e]
    simp [tenacityGo, h i, ih (i + 1)]

/-- Helper: the `_make_api_request` loop on a permanently failing operation
is invoked `fuel` times and raises the last recorded error. -/
theorem apiRequestGo_allFail {α : Type} (errs : Nat → PyExc) :
    ∀ fuel i last,
      apiRequestGo (fun j => (.error (errs j) : Except PyExc α)) i (fuel + 1) last =
      (.error (errs (i + fuel)), fuel + 1) := by
  intro fuel
  induction fuel with
  | zero => intro i last; simp [apiRequestGo]
  | succ n ih =>
    intro i last
    have e : i + (n + 1) = i + 1 + n := by omega
    rw [e]
    rw [show apiRequestGo (fun j => (.error (errs j) : Except PyExc α)) i (n + 1 + 1) last
        = ((apiRequestGo (fun j => (.error (errs j) : Except PyExc α)) (i + 1) (n + 1)
              (some (errs i))).1,
           (apiRequestGo (fun j => (.error (errs j) : Except PyExc α)) (i + 1) (n + 1)
              (some (errs i))).2 + 1) from rfl]
    rw [ih (i + 1) (some (errs i))]

/-! ## Count normalizer: `CrawlbaseParser.parse_count_string` -/

/-- Whitespace as recognised by the Python string operations used in the
parser (`strip`, the `\s` regex class).  Lean's `Char.isWhitespace` covers
space, tab, CR and LF, which is the fragment exercised by the pipeline. -/
def isPySpace (c : Char) : Bool := c.isWhitespace

/-- Drop trailing characters satisfying `p` (right-hand counterpart of
`List.dropWhile`). -/
def dropRightWhileL (p : Char → Bool) (l : List Char) : List Char :=
  (l.reverse.dropWhile p).reverse

/-- Python `str.strip()` on a character list. -/
def pyStrip (l : List Char) : List Char :=
  dropRightWhileL isPySpace (l.dropWhile isPySpace)

/-- Alternatives of the suffix-removal regex
`\s*(followers?|following|posts?)\s*$` in the order the regex engine tries
them (greedy optional `s` first). -/
def countSuffixWords : List (List Char) :=
  ["followers".data, "follower".data, "following".data, "posts".data,
   "post".data]

/-- Effect of `re.sub(r'\s*(followers?|following|posts?)\s*$', '', s)`:
if, after the trailing whitespace, the string ends in one of the suffix
words, that word and the whitespace around it are removed; otherwise the
string is unchanged. -/
def removeCountSuffix (l : List Char) : List Char :=
  let t := dropRightWhileL isPySpace l
  match countSuffixWords.find? (fun w => w.isSuffixOf t) with
  | some w => dropRightWhileL isPySpace (t.take (t.length - w.length))
  | none => l

/-- Substring test used to model Python `needle in haystack`. -/
def containsSub (needle : List Char) : List Char → Bool
  | [] => needle.isEmpty
  | c :: t => needle.isPrefixOf (c :: t) || containsSub needle t

/-- Condition of the million branch: `any(ind in s for ind in
['m','млн','million'])`. -/
def millionCond (l : List Char) : Bool :=
  ["m".data, "млн".data, "million".data].any (fun w => containsSub w l)

/-- Condition of the thousand branch: `any(ind in s for ind in
['k','тыс','thousand'])`. -/
def thousandCond (l : List Char) : Bool :=
  ["k".data, "тыс".data, "thousand".data].any (fun w => containsSub w l)

/-- Character class of the mantissa regex `[\d,.\s]`. -/
def isNumRunChar (c : Char) : Bool :=
  c.isDigit || c == ',' || c == '.' || isPySpace c

/-- Result of `re.search(r'([\d,.\s]+)', s)`: the first maximal run of
mantissa characters, or no match when none occurs. -/
def firstNumRun (l : List Char) : Option (List Char) :=
  let rest := l.dropWhile (fun c => !isNumRunChar c)
  match rest with
  | [] => none
  | _ => some (rest.takeWhile isNumRunChar)

/-- Python digit-string to number (the strings fed to this are all-digit). -/
def digitsToNat (l : List Char) : Nat :=
  l.foldl (fun a c => a * 10 + (c.toNat - 48)) 0

/-- Cleaning of the captured mantissa: `.replace(',', '.').replace(' ', '')
.strip()`. -/
def cleanNumPart (run : List Char) : List Char :=
  pyStrip ((run.map (fun c => if c == ',' then '.' else c)).filter
    (fun c => c != ' '))

/-- Python `float()` restricted to the digit/dot strings the parser can
produce: a nonempty string of digits with at most one dot, returned as
(numerator, number of fractional digits) so the value is exact.  Any other
content (empty string, stray whitespace, several dots) raises `ValueError`,
modelled by `none`.  CPython evaluates the literal in binary floating
point; on the mantissas relevant here the rounded double times the metric
multiplier truncates to the same integer as the exact value. -/
def parsePyFloatDigits (l : List Char) : Option (Nat × Nat) :=
  match l with
  | [] => none
  | _ =>
    if l.all (fun c => c.isDigit || c == '.') then
      match (l.filter (fun c => c == '.')).length with
      | 0 => some (digitsToNat l, 0)
      | 1 =>
        let intPart := l.takeWhile (fun c => c != '.')
        let fracPart := (l.dropWhile (fun c => c != '.')).tail
        match intPart, fracPart with
        | [], [] => none
        | _, _ => some (digitsToNat (intPart ++ fracPart), fracPart.length)
      | _ => none
    else none

/-- Fallback of the `except (ValueError, TypeError)` handler: take the first
run matched by `re.findall(r'[\d,]+', raw)`, strip the commas, and convert;
a run of commas only, or no run at all, yields 0. -/
def countFallback (orig : List Char) : Option Int :=
  match orig.dropWhile (fun c => !(c.isDigit || c == ',')) with
  | [] => some 0
  | c :: t =>
    match (((c :: t).takeWhile (fun c => c.isDigit || c == ',')).filter
        (fun c => c != ',')) with
    | [] => some 0
    | d :: ds => some ((digitsToNat (d :: ds) : Nat) : Int)

/-- Cleaned string computed by the parser before branching:
`count_str.lower().strip()` followed by the suffix-word removal. -/
def cleanedCount (s : String) : List Char :=
  removeCountSuffix (pyStrip (s.data.map Char.toLower))

/-- String arm of `parse_count_string` (the code after the `isinstance`
dispatch).  `some n` models `return n`; `none` models the implicit Python
`None` that is returned when a metric-marker branch is entered but the
mantissa regex finds no match (the function body falls off its end). -/
def parseCountStr (s : String) : Option Int :=
  if millionCond (cleanedCount s) then
    match firstNumRun (cleanedCount s) with
    | none => none
    | some run =>
      match parsePyFloatDigits (cleanNumPart run) with
      | some (n, sc) => some (((n * 1000000) / 10 ^ sc : Nat) : Int)
      | none => countFallback s.data
  else if thousandCond (cleanedCount s) then
    match firstNumRun (cleanedCount s) with
    | none => none
    | some run =>
      match parsePyFloatDigits (cleanNumPart run) with
      | some (n, sc) => some (((n * 1000) / 10 ^ sc : Nat) : Int)
      | none => countFallback s.data
  else
    some ((digitsToNat ((cleanedCount s).filter Char.isDigit) : Nat) : Int)

/-- Inputs accepted by `parse_count_string`: a Python `int`, `str`, a
mapping (whose `value` entry is absent, an `int`, or a `str`), or any other
value such as `None`. -/
inductive CountVal where
  | vInt (n : Int)
  | vStr (s : String)
  | vDict (value : Option (Int ⊕ String))
  | vNone
deriving DecidableEq, Repr

/-- Model of `CrawlbaseParser.parse_count_string`
(`crawlbase_parser.py` lines 100-165).  Integers are returned unchanged; a
mapping contributes its `value` entry (default the string `"0"`); any
non-int non-dict non-str input returns 0; strings go through the cleaning,
metric-suffix and fallback logic.  The result is `Option Int` because the
Python function can fall off its end and return `None`. -/
def parse_count_string : CountVal → Option Int
  | .vInt n => some n
  | .vDict none => parseCountStr "0"
  | .vDict (some (.inl n)) => some n
  | .vDict (some (.inr s)) => parseCountStr s
  | .vNone => some 0
  | .vStr s => parseCountStr s

/-! ## Profile normalizer: `CrawlbaseParser.parse_profile_data` -/

/-- Shape of the `bio` entry of a raw profile payload: a mapping with a
`text` entry, a truthy non-mapping value rendered with `str`, or a falsy
value. -/
inductive BioVal where
  | bdict (text : Option String)
  | bstr (s : String)
  | bfalsy
deriving DecidableEq, Repr

/-- Raw Instagram profile mapping as consumed by `parse_profile_data`
(each field models one `raw_data.get(...)` access; `none` means the key is
absent). -/
structure RawProfile where
  username : Option String := none
  name : Option String := none
  verified : Option Bool := none
  picture : Option String := none
  bio : Option BioVal := none
  followersCount : Option CountVal := none
  followingCount : Option CountVal := none
  postsCount : Option CountVal := none
deriving DecidableEq, Repr

/-- Bio extraction of `parse_profile_data` lines 184-188. -/
def parseBio : Option BioVal → String
  | some (.bdict t) => t.getD ""
  | some (.bstr s) => s
  | some .bfalsy => ""
  | none => ""

/-- Parsed profile record (`InstagramProfile` dataclass).  A Python
dataclass performs no validation, so the count fields carry exactly what
`parse_count_string` produced, including a possible `None`. -/
structure InstagramProfile where
  username : String
  name : String
  verified : Bool
  followers_count : Option Int
  following_count : Option Int
  posts_count : Option Int
  bio : String
  profile_pic_url : String
  is_business : Bool
  external_url : String
deriving DecidableEq, Repr

/-- Model of `CrawlbaseParser.parse_profile_data`
(`crawlbase_parser.py` lines 167-222).  The counts are read with default
`{}` (an empty mapping, whose `value` entry then defaults to the string
`"0"`), parsed, and then assigned with the roles swapped: the value of the
`followingCount` field becomes `followers_count` and the value of the
`followersCount` field becomes `following_count`, unconditionally. -/
def parse_profile_data (raw : RawProfile) : InstagramProfile :=
  let followers_raw := raw.followersCount.getD (.vDict none)
  let following_raw := raw.followingCount.getD (.vDict none)
  let posts_raw := raw.postsCount.getD (.vDict none)
  let small_number := parse_count_string followers_raw
  let large_number := parse_count_string following_raw
  { username := raw.username.getD ""
    name := raw.name.getD ""
    verified := raw.verified.getD false
    followers_count := large_number
    following_count := small_number
    posts_count := parse_count_string posts_raw
    bio := parseBio raw.bio
    profile_pic_url := raw.picture.getD ""
    is_business := false
    external_url := "" }

/-! ## Wrapper-body extraction: `CrawlbaseParser.extract_response_body` -/

/-- Shape of the `body` entry of a Crawlbase wrapper response. -/
inductive BodyVal where
  | bdict (d : RawProfile)
  | bstr (s : String)
  | bbytes (s : String)
  | bother
deriving DecidableEq, Repr

/-- Crawlbase wrapper response: a mapping that may or may not carry a
`body` entry, or a non-mapping value. -/
inductive CrawlbaseResponse where
  | rdict (body : Option BodyVal)
  | nonDict
deriving DecidableEq, Repr

/-- Model of the body of `CrawlbaseParser.extract_response_body`
(`crawlbase_parser.py` lines 56-98), parameterised by the JSON decoder
(`json.loads`, `none` modelling `JSONDecodeError`).  A non-mapping
response, a missing `body` entry, undecodable text, and an unexpected body
type each raise `ValueError`. -/
def extract_response_body (jsonLoads : String → Option RawProfile) :
    CrawlbaseResponse → Except PyExc RawProfile
  | .nonDict => .error (.valueError "Expected dict response")
  | .rdict none =>
    .error (.valueError "Invalid Crawlbase response - missing body field")
  | .rdict (some (.bdict d)) => .ok d
  | .rdict (some (.bstr s)) =>
    match jsonLoads s with
    | some d => .ok d
    | none => .error (.valueError "Invalid JSON in response body")
  | .rdict (some (.bbytes s)) =>
    match jsonLoads s with
    | some d => .ok d
    | none => .error (.valueError "Invalid JSON in response body")
  | .rdict (some .bother) => .error (.valueError "Unexpected body type")

/-! ## Helper lemmas about the count parser -/

/-- Marker predicate used to characterise the implicit-`None` paths of
`parse_count_string`: the cleaned string contains a metric marker but no
character of the mantissa class. -/
def suffixMarkerNoDigits (s : String) : Bool :=
  (millionCond (cleanedCount s) || thousandCond (cleanedCount s)) &&
    (firstNumRun (cleanedCount s)).isNone

/-- Helper: the fallback extraction never yields a negative count. -/
theorem countFallback_nonneg (l : List Char) (m : Int)
    (h : countFallback l = some m) : 0 ≤ m := by
  unfold countFallback at h
  split at h
  · simp at h; omega
  · split at h
    · simp at h; omega
    · rw [Option.some_inj] at h
      exact h ▸ Int.natCast_nonneg _

/-- Helper: the fallback extraction always yields a value. -/
theorem countFallback_ne_none (l : List Char) : countFallback l ≠ none := by
  unfold countFallback
  split
  · simp
  · split <;> simp

/-- Helper: the string arm of the parser never yields a negative count. -/
theorem parseCountStr_nonneg (s : String) (m : Int)
    (h : parseCountStr s = some m) : 0 ≤ m := by
  unfold parseCountStr at h
  split at h
  · split at h
    · simp at h
    · split at h
      · rw [Option.some_inj] at h
        exact h ▸ Int.natCast_nonneg _
      · exact countFallback_nonneg _ _ h
  · split at h
    · split at h
      · simp at h
      · split at h
        · rw [Option.some_inj] at h
          exact h ▸ Int.natCast_nonneg _
        · exact countFallback_nonneg _ _ h
    · rw [Option.some_inj] at h
      exact h ▸ Int.natCast_nonneg _

/-- Helper: the string arm yields no value only on a metric marker with an
empty mantissa match. -/
theorem parseCountStr_none_marker (s : String)
    (h : parseCountStr s = none) : suffixMarkerNoDigits s = true := by
  unfold parseCountStr at h
  unfold suffixMarkerNoDigits
  split at h
  next hm =>
    split at h
    next hrun => simp [hm, hrun]
    next => split at h
            · simp at h
            · exact absurd h (countFallback_ne_none _)
  next hm =>
    split at h
    next hk =>
      split at h
      next hrun => simp [hk, hrun]
      next => split at h
              · simp at h
              · exact absurd h (countFallback_ne_none _)
    next => simp at h

/-! ## Claim theorems C1 - C6 -/

/-- C1: for every retry configuration with `max_attempts = N` (N ≥ 1) and
every operation failing with a retryable error on each invocation, both the
tenacity-based wrapper of `create_retry_decorator` and the manual loop of
`InstagramClientV2._make_api_request` (with `retry_count = N - 1`) invoke
the operation exactly N times and re-raise the error of the N-th attempt;
for N = 1 the operation runs exactly once. -/
theorem retry_invokes_N_times_reraises_last {α : Type}
    (N : Nat) (hN : 1 ≤ N) (p : PyExc → Bool) (errs : Nat → PyExc)
    (h : ∀ i, p (errs i) = true) :
    tenacityRun p N (fun i => (.error (errs i) : Except PyExc α)) =
      (.error (errs (N - 1)), N)
    ∧ makeApiRequest (N - 1) (fun i => (.error (errs i) : Except PyExc α)) =
      (.error (errs (N - 1)), N) := by
  constructor
  · unfold tenacityRun
    rw [tenacityGo_allFail p errs h (N - 1) 0]
    simp
    omega
  · unfold makeApiRequest
    rw [apiRequestGo_allFail errs (N - 1) 0 none]
    simp
    omega

/-- Witness for C1 at N = 3 with a constantly failing retryable operation. -/
theorem retry_invokes_N_times_reraises_last_witness :
    tenacityRun (fun _ => true) 3
        (fun _ => (.error (.exception "boom") : Except PyExc Unit)) =
      (.error (.exception "boom"), 3)
    ∧ makeApiRequest 2
        (fun _ => (.error (.exception "boom") : Except PyExc Unit)) =
      (.error (.exception "boom"), 3) :=
  retry_invokes_N_times_reraises_last 3 (by decide) (fun _ => true)
    (fun _ => .exception "boom") (fun _ => rfl)

/-- C2 counterexample: with `initial_wait = 2`, `backoff_multiplier = 3/2`,
`max_wait = 10`, the wait slept before attempt 4 is 6 (tenacity computes
`multiplier * 2 ^ (k-2)` floored at `initial_wait`), not the
`min(initial_wait * multiplier ^ (k-2), max_wait) = 9/2` stated by the
claim. -/
theorem backoff_formula_counterexample :
    waitBeforeAttempt 2 (3/2) 10 4 = 6
    ∧ specWaitFormula 2 (3/2) 10 4 = 9/2
    ∧ waitBeforeAttempt 2 (3/2) 10 4 ≠ specWaitFormula 2 (3/2) 10 4 := by
  refine ⟨?_, ?_, ?_⟩ <;>
    norm_num [waitBeforeAttempt, waitExponential, specWaitFormula]

/-- C2 amended: the wait slept before attempt k (k ≥ 2) equals
`max (max 0 initial_wait) (min (backoff_multiplier * 2 ^ (k-2)) max_wait)`:
the growth base is fixed at 2, `backoff_multiplier` is a constant factor,
`initial_wait` is a lower clamp, and the value is never negative. -/
theorem backoff_wait_amended (iw mult mw : ℚ) (k : Nat) (hk : 2 ≤ k) :
    waitBeforeAttempt iw mult mw k =
      max (max 0 iw) (min (mult * 2 ^ (k - 2)) mw)
    ∧ 0 ≤ waitBeforeAttempt iw mult mw k := by
  have e : k - 1 - 1 = k - 2 := by omega
  unfold waitBeforeAttempt waitExponential
  rw [e]
  exact ⟨rfl, le_trans (le_max_left 0 iw) (le_max_left _ _)⟩

/-- Witness for the amended C2 at the configuration of the counterexample. -/
theorem backoff_wait_amended_witness :
    waitBeforeAttempt 2 (3/2) 10 4 =
      max (max 0 2) (min ((3/2) * 2 ^ 2) 10)
    ∧ (0:ℚ) ≤ waitBeforeAttempt 2 (3/2) 10 4 :=
  backoff_wait_amended 2 (3/2) 10 4 (by norm_num)

/-- C3 counterexample: the retry policy `retry_external_calls` does retry
the fatal missing-body `ValueError` (because its tuple includes
`Exception`), so with the default 3 attempts the extraction runs 3 times,
not once. -/
theorem missing_body_retried_counterexample :
    (tenacityRun retryExternalPred 3
      (fun _ => extract_response_body (fun _ => none) (.rdict none))).2 = 3
    ∧ (tenacityRun retryExternalPred 3
      (fun _ => extract_response_body (fun _ => none) (.rdict none))).2 ≠ 1
    ∧ retryExternalPred
        (.valueError "Invalid Crawlbase response - missing body field") =
        true := by decide

/-- C3 amended: on a wrapper mapping without a `body` entry the extraction
raises `ValueError`, but the applied policy classifies every `Exception`
(hence this `ValueError`) as retryable, so with N configured attempts the
extraction is invoked N times and the `ValueError` is re-raised after
exhaustion. -/
theorem missing_body_valueerror_retried (N : Nat) (hN : 1 ≤ N)
    (jsonLoads : String → Option RawProfile) :
    extract_response_body jsonLoads (.rdict none) =
      .error (.valueError "Invalid Crawlbase response - missing body field")
    ∧ retryExternalPred
        (.valueError "Invalid Crawlbase response - missing body field") = true
    ∧ tenacityRun retryExternalPred N
        (fun _ => extract_response_body jsonLoads (.rdict none)) =
      (.error (.valueError "Invalid Crawlbase response - missing body field"),
        N) := by
  refine ⟨rfl, rfl, ?_⟩
  unfold tenacityRun
  have e : (fun _ : Nat => extract_response_body jsonLoads (.rdict none)) =
      (fun _ : Nat =>
        (.error (.valueError "Invalid Crawlbase response - missing body field")
          : Except PyExc RawProfile)) := rfl
  rw [e, tenacityGo_allFail _ _ (fun _ => rfl) (N - 1) 0]
  simp
  omega

/-- Witness for the amended C3 at N = 3. -/
theorem missing_body_valueerror_retried_witness :
    extract_response_body (fun _ => none) (.rdict none) =
      .error (.valueError "Invalid Crawlbase response - missing body field")
    ∧ retryExternalPred
        (.valueError "Invalid Crawlbase response - missing body field") = true
    ∧ tenacityRun retryExternalPred 3
        (fun _ => extract_response_body (fun _ => none) (.rdict none)) =
      (.error (.valueError "Invalid Crawlbase response - missing body field"),
        3) :=
  missing_body_valueerror_retried 3 (by decide) (fun _ => none)

/-- C4: the count normalizer sends "34.2M followers" to 34200000 and
"1,263 posts" to 1263. -/
theorem count_normalizer_scenarios :
    parse_count_string (.vStr "34.2M followers") = some 34200000
    ∧ parse_count_string (.vStr "1,263 posts") = some 1263 := by decide

/-- C5 counterexample: a negative integer input is returned unchanged
(negative, so not a non-negative integer), and the marker-only string "m"
makes the function fall off its end and return Python `None` instead of 0. -/
theorem parse_count_nonneg_counterexample :
    parse_count_string (.vInt (-7)) = some (-7)
    ∧ ¬ (0:Int) ≤ -7
    ∧ parse_count_string (.vStr "m") = none := by decide

/-- C5 amended: the normalizer terminates on every input; integer inputs
(directly or under the `value` key) are passed through unchanged, so a
negative integer stays negative; `None` and empty-mapping inputs give 0;
every value produced from a string is non-negative, and a string produces
no value (Python `None`) only when it carries a metric marker with no
mantissa character at all. -/
theorem parse_count_total_amended (n : Int) (s : String) :
    parse_count_string (.vInt n) = some n
    ∧ parse_count_string .vNone = some 0
    ∧ parse_count_string (.vDict none) = some 0
    ∧ parse_count_string (.vDict (some (.inl n))) = some n
    ∧ parse_count_string (.vDict (some (.inr s))) = parseCountStr s
    ∧ parse_count_string (.vStr s) = parseCountStr s
    ∧ (∀ m : Int, parseCountStr s = some m → 0 ≤ m)
    ∧ (parseCountStr s = none → suffixMarkerNoDigits s = true) :=
  ⟨rfl, rfl, by decide, rfl, rfl, rfl,
   parseCountStr_nonneg s, parseCountStr_none_marker s⟩

/-- Witness for the amended C5: pass-through of -7, non-negativity of the
value parsed from "5", and the marker characterisation at "m". -/
theorem parse_count_total_amended_witness :
    parse_count_string (.vInt (-7)) = some (-7)
    ∧ (0:Int) ≤ 5
    ∧ suffixMarkerNoDigits "m" = true :=
  ⟨(parse_count_total_amended (-7) "x").1,
   (parse_count_total_amended 0 "5").2.2.2.2.2.2.1 5 (by decide),
   (parse_count_total_amended 0 "m").2.2.2.2.2.2.2 (by decide)⟩

/-- Raw payload carrying only the two swapped candidate count fields, as
strings. -/
def rawWithCounts (fwers fwing : String) : RawProfile :=
  { followersCount := some (.vStr fwers)
    followingCount := some (.vStr fwing) }

/-- C6 counterexample: with `followersCount = "10"` and
`followingCount = "5"` the normalized profile reports 5 followers — the
smaller candidate — because `parse_profile_data` swaps the two fields
unconditionally rather than taking the larger value as followers. -/
theorem followers_larger_heuristic_counterexample :
    parse_count_string (.vStr "10") = some 10
    ∧ parse_count_string (.vStr "5") = some 5
    ∧ (parse_profile_data (rawWithCounts "10" "5")).followers_count = some 5
    ∧ (parse_profile_data (rawWithCounts "10" "5")).following_count = some 10
    ∧ ¬ (parse_profile_data (rawWithCounts "10" "5")).followers_count =
        some (max 10 5) := by decide

/-- C6 amended: the normalizer applies a fixed documented swap — the
`followingCount` field becomes the followers count and the `followersCount`
field becomes the following count, for all payloads; this agrees with the
larger-as-followers heuristic exactly when the `followingCount` field
parses to the larger value. -/
theorem profile_counts_swapped (raw : RawProfile) :
    (parse_profile_data raw).followers_count =
      parse_count_string (raw.followingCount.getD (.vDict none))
    ∧ (parse_profile_data raw).following_count =
      parse_count_string (raw.followersCount.getD (.vDict none))
    ∧ (∀ a b : Int,
        parse_count_string (raw.followersCount.getD (.vDict none)) = some a →
        parse_count_string (raw.followingCount.getD (.vDict none)) = some b →
        a ≤ b →
        (parse_profile_data raw).followers_count = some (max a b)
        ∧ (parse_profile_data raw).following_count = some (min a b)) := by
  refine ⟨rfl, rfl, fun a b ha hb hab => ?_⟩
  unfold parse_profile_data
  simp only [ha, hb]
  rw [max_eq_right hab, min_eq_left hab]
  exact ⟨rfl, rfl⟩

/-- Witness for the amended C6 with candidates 5 and 10 in the coinciding
orientation. -/
theorem profile_counts_swapped_witness :
    (parse_profile_data (rawWithCounts "5" "10")).followers_count =
      some (max 5 10)
    ∧ (parse_profile_data (rawWithCounts "5" "10")).following_count =
      some (min 5 10) :=
  (profile_counts_swapped (rawWithCounts "5" "10")).2.2 5 10 (by decide)
    (by decide) (by decide)

/-! ## Video-link collection: `YouTubeScraper.scrape` lines 163-170 -/

/-- Condition of `if href and "watch?v=" in href`: the attribute is a
non-empty string containing the target pattern. -/
def linkOk (h : String) : Bool :=
  (h != "") && containsSub "watch?v=".data h.data

/-- One iteration of the collection loop body: append the href when it is
present, matches, and is not yet collected. -/
def collectStep (acc : List String) : Option String → List String
  | some h => if linkOk h && !(acc.contains h) then acc ++ [h] else acc
  | none => acc

/-- The collection loop: process elements in order, breaking as soon as the
accumulated list reaches 10 entries (the length test runs after every
iteration). -/
def collectGo (acc : List String) : List (Option String) → List String
  | [] => acc
  | e :: es =>
    if (collectStep acc e).length = 10 then collectStep acc e
    else collectGo (collectStep acc e) es

/-- Video-link extraction of `YouTubeScraper.scrape`: fold the anchor
hrefs through the capped, deduplicating loop starting from the empty
list. -/
def collectVideoLinks (hrefs : List (Option String)) : List String :=
  collectGo [] hrefs

/-- Present hrefs that pass the pattern test, in input order. -/
def validLinks (hrefs : List (Option String)) : List String :=
  (hrefs.filterMap id).filter linkOk

/-- First-seen deduplication relative to an already-seen list. -/
def dedupSeen (seen : List String) : List String → List String
  | [] => []
  | h :: t =>
    if seen.contains h then dedupSeen seen t
    else h :: dedupSeen (h :: seen) t

/-- First-seen deduplication of a list. -/
def dedupFirst (l : List String) : List String := dedupSeen [] l

/-- Helper: deduplication only depends on the membership of the seen
list. -/
theorem dedupSeen_congr (l : List String) :
    ∀ s₁ s₂ : List String, (∀ x, s₁.contains x = s₂.contains x) →
      dedupSeen s₁ l = dedupSeen s₂ l := by
  induction l with
  | nil => intro s₁ s₂ _; rfl
  | cons h t ih =>
    intro s₁ s₂ hmem
    unfold dedupSeen
    rw [hmem h]
    by_cases hc : s₂.contains h = true
    · rw [if_pos hc, if_pos hc]
      exact ih s₁ s₂ hmem
    · rw [if_neg hc, if_neg hc]
      have : ∀ x, (h :: s₁).contains x = (h :: s₂).contains x := by
        intro x
        simp only [List.contains_cons, hmem x]
      rw [ih (h :: s₁) (h :: s₂) this]

/-- Helper: everything produced by `dedupSeen` is new relative to `seen`
and comes from the input. -/
theorem dedupSeen_mem (l : List String) :
    ∀ seen x, x ∈ dedupSeen seen l → x ∈ l ∧ seen.contains x = false := by
  induction l with
  | nil => intro seen x hx; exact absurd hx (by simp [dedupSeen])
  | cons h t ih =>
    intro seen x hx
    unfold dedupSeen at hx
    split at hx
    · rcases ih seen x hx with ⟨h1, h2⟩
      exact ⟨List.mem_cons_of_mem h h1, h2⟩
    · next hc =>
      rcases List.mem_cons.mp hx with rfl | hx'
      · exact ⟨List.mem_cons_self _ _, by simpa using hc⟩
      · rcases ih (h :: seen) x hx' with ⟨h1, h2⟩
        simp only [List.contains_cons, Bool.or_eq_false_iff] at h2
        exact ⟨List.mem_cons_of_mem h h1, h2.2⟩

/-- Helper: first-seen deduplication produces no duplicates. -/
theorem dedupSeen_nodup (l : List String) :
    ∀ seen, (dedupSeen seen l).Nodup := by
  induction l with
  | nil => intro seen; simp [dedupSeen]
  | cons h t ih =>
    intro seen
    unfold dedupSeen
    split
    · exact ih seen
    · refine List.nodup_cons.mpr ⟨fun hmem => ?_, ih (h :: seen)⟩
      have := (dedupSeen_mem t (h :: seen) h hmem).2
      simp [List.contains_cons] at this

/-- Helper: unfolding equation of the loop on a cons cell. -/
theorem collectGo_cons (acc : List String) (e : Option String)
    (es : List (Option String)) :
    collectGo acc (e :: es) =
      if (collectStep acc e).length = 10 then collectStep acc e
      else collectGo (collectStep acc e) es := rfl

/-- Helper: unfolding equation of the deduplication on a cons cell. -/
theorem dedupSeen_cons (seen : List String) (h : String) (t : List String) :
    dedupSeen seen (h :: t) =
      if seen.contains h then dedupSeen seen t
      else h :: dedupSeen (h :: seen) t := rfl

/-- Helper: unfolding equation of the loop body on a present href. -/
theorem collectStep_some (acc : List String) (h : String) :
    collectStep acc (some h) =
      if linkOk h && !(acc.contains h) then acc ++ [h] else acc := rfl

/-- Helper: deduplication drops an already-seen head. -/
theorem dedupSeen_cons_mem {seen : List String} {h : String}
    {t : List String} (hc : seen.contains h = true) :
    dedupSeen seen (h :: t) = dedupSeen seen t := by
  rw [dedupSeen_cons, if_pos hc]

/-- Helper: deduplication keeps an unseen head. -/
theorem dedupSeen_cons_new {seen : List String} {h : String}
    {t : List String} (hc : ¬ seen.contains h = true) :
    dedupSeen seen (h :: t) = h :: dedupSeen (h :: seen) t := by
  rw [dedupSeen_cons, if_neg hc]

/-- Helper: valid links of a cons cell. -/
theorem validLinks_cons_some (h : String) (es : List (Option String)) :
    validLinks (some h :: es) =
      if linkOk h then h :: validLinks es else validLinks es := by
  unfold validLinks
  simp [List.filter_cons]

/-- Helper: the collection loop equals take-after-dedup of the valid links,
for every accumulator still below the cap. -/
theorem collectGo_eq (hrefs : List (Option String)) :
    ∀ acc : List String, acc.length < 10 →
      collectGo acc hrefs =
        acc ++ (dedupSeen acc (validLinks hrefs)).take (10 - acc.length) := by
  induction hrefs with
  | nil =>
    intro acc _
    simp [collectGo, validLinks, dedupSeen]
  | cons e es ih =>
    intro acc hacc
    match e with
    | none =>
      have hstep : collectStep acc none = acc := rfl
      have hlen : ¬ (collectStep acc none).length = 10 := by
        rw [hstep]; omega
      rw [collectGo_cons, if_neg hlen, hstep, ih acc hacc]
      rfl
    | some h =>
      by_cases hok : linkOk h = true
      · by_cases hseen : acc.contains h = true
        · have hstep : collectStep acc (some h) = acc := by
            rw [collectStep_some, hok, hseen]
            simp
          have hlen : ¬ (collectStep acc (some h)).length = 10 := by
            rw [hstep]; omega
          rw [collectGo_cons, if_neg hlen, hstep, ih acc hacc,
            validLinks_cons_some, if_pos hok, dedupSeen_cons_mem hseen]
        · have hcf : acc.contains h = false := by
            cases hcc : acc.contains h
            · rfl
            · exact absurd hcc hseen
          have hstep : collectStep acc (some h) = acc ++ [h] := by
            rw [collectStep_some, hok, hcf]
            simp
          by_cases hlen : (acc ++ [h]).length = 10
          · have h9 : acc.length = 9 := by
              simp at hlen; omega
            rw [collectGo_cons, hstep, if_pos hlen,
              validLinks_cons_some, if_pos hok, dedupSeen_cons_new hseen, h9]
            simp
          · have hlt : (acc ++ [h]).length < 10 := by
              simp at hlen ⊢; omega
            have hmemeq : ∀ x, (acc ++ [h]).contains x = (h :: acc).contains x := by
              intro x
              rw [List.contains_eq_any_beq, List.contains_eq_any_beq,
                List.any_append]
              simp [Bool.or_comm]
            rw [collectGo_cons, hstep, if_neg hlen, ih (acc ++ [h]) hlt,
              validLinks_cons_some, if_pos hok, dedupSeen_cons_new hseen,
              dedupSeen_congr _ _ _ hmemeq]
            rw [show 10 - acc.length = (9 - acc.length) + 1 from by omega,
              List.take_succ_cons,
              show (acc ++ [h]).length = acc.length + 1 from by simp,
              show 10 - (acc.length + 1) = 9 - acc.length from by omega]
            simp
      · have hstep : collectStep acc (some h) = acc := by
          rw [collectStep_some]
          simp [hok]
        have hlen : ¬ (collectStep acc (some h)).length = 10 := by
          rw [hstep]; omega
        rw [collectGo_cons, if_neg hlen, hstep, ih acc hacc,
          validLinks_cons_some, if_neg hok]

/-- C8: the link-collection step yields at most 10 pairwise-distinct links,
each containing the target pattern, equal to the first 10 elements of the
first-seen deduplication of the valid hrefs (so first-seen order is kept
and collection stops at the cap). -/
theorem video_link_collection (hrefs : List (Option String)) :
    collectVideoLinks hrefs = (dedupFirst (validLinks hrefs)).take 10
    ∧ (collectVideoLinks hrefs).length ≤ 10
    ∧ (collectVideoLinks hrefs).Nodup
    ∧ (∀ h ∈ collectVideoLinks hrefs, linkOk h = true) := by
  have he : collectVideoLinks hrefs = (dedupFirst (validLinks hrefs)).take 10 := by
    unfold collectVideoLinks dedupFirst
    rw [collectGo_eq hrefs [] (by simp)]
    simp
  refine ⟨he, ?_, ?_, ?_⟩
  · rw [he]
    exact List.length_take_le _ _
  · rw [he]
    exact List.Nodup.sublist (List.take_sublist _ _) (dedupSeen_nodup _ _)
  · intro h hm
    rw [he] at hm
    have hm2 : h ∈ dedupFirst (validLinks hrefs) := List.mem_of_mem_take hm
    have hv : h ∈ validLinks hrefs := (dedupSeen_mem _ _ _ hm2).1
    unfold validLinks at hv
    exact (List.mem_filter.mp hv).2

/-- Concrete anchor list for the capped-collection scenario: 15 candidate
hrefs containing duplicates, non-matching links and a missing attribute,
with 11 distinct matching links. -/
def hrefs15 : List (Option String) :=
  [some "https://www.youtube.com/watch?v=a",
   some "https://www.youtube.com/watch?v=b",
   some "https://www.youtube.com/watch?v=a",
   some "https://www.youtube.com/about",
   some "https://www.youtube.com/watch?v=c",
   some "https://www.youtube.com/watch?v=d",
   none,
   some "https://www.youtube.com/watch?v=e",
   some "https://www.youtube.com/watch?v=f",
   some "https://www.youtube.com/watch?v=b",
   some "https://www.youtube.com/watch?v=g",
   some "https://www.youtube.com/watch?v=h",
   some "https://www.youtube.com/watch?v=i",
   some "https://www.youtube.com/watch?v=j",
   some "https://www.youtube.com/watch?v=k"]

/-- Witness for C8: the collection law applied to the concrete 15-element
candidate list, and the pattern test discharged at one collected link. -/
theorem video_link_collection_witness :
    collectVideoLinks hrefs15 = (dedupFirst (validLinks hrefs15)).take 10
    ∧ linkOk "https://www.youtube.com/watch?v=a" = true :=
  ⟨(video_link_collection hrefs15).1,
   (video_link_collection hrefs15).2.2.2 "https://www.youtube.com/watch?v=a"
     (by decide)⟩

/-! ## Browser-session release: `scrape_youtube` endpoint and
`YouTubeScraper.quit` -/

/-- Outcome of the `await scraper.scrape(url)` call as seen by the
endpoint: a returned result (carrying its `error_message` field) or a
raised exception. -/
inductive ScrapeCall where
  | returns (errMsg : Option String)
  | raises (e : PyExc)
deriving DecidableEq, Repr

/-- Transport-level response of the endpoint. -/
inductive EndpointResponse where
  | success
  | httpError (status : Nat) (detail : String)
deriving DecidableEq, Repr

/-- Python `str.strip()`. -/
def pyStripStr (s : String) : String := ⟨pyStrip s.data⟩

/-- Model of `YouTubeScraper.quit` (`youtube.py` lines 196-203): the call
to `self.driver.quit()` may itself fail, but the failure is caught and
logged, so the method always returns normally. -/
def youtubeQuit (driverQuit : Except PyExc Unit) : Except PyExc Unit :=
  match driverQuit with
  | .ok _ => .ok ()
  | .error _ => .ok ()

/-- Model of the endpoint `scrape_youtube` (`youtube_scraper.py` lines
25-59).  The second component counts the invocations of `scraper.quit()`.
After an empty (stripped) URL the session is never created (400, no quit).
When `scrape` returns, `scraper.quit()` runs exactly once (line 38) before
the `error_message` test that selects 200 or 422.  When `scrape` raises,
control jumps to the generic handler (500) and — there being no
`try/finally` — `scraper.quit()` is never invoked. -/
def scrape_youtube (url : String) (call : ScrapeCall)
    (driverQuit : Except PyExc Unit) : EndpointResponse × Nat :=
  if pyStripStr url = "" then
    (.httpError 400 "YouTube URL cannot be empty", 0)
  else
    match call with
    | .raises _ => (.httpError 500 "Internal server error", 0)
    | .returns msg =>
      match youtubeQuit driverQuit, msg with
      | _, some m =>
        if m ≠ "" then (.httpError 422 "Failed to scrape YouTube", 1)
        else (.success, 1)
      | _, none => (.success, 1)

/-- C9 counterexample: when `scrape` raises, the session close is invoked
zero times, not exactly once — the endpoint has no `try/finally`. -/
theorem youtube_quit_counterexample :
    (scrape_youtube "https://www.youtube.com/@chan"
      (.raises (.exception "boom")) (.ok ())).2 = 0
    ∧ ¬ (scrape_youtube "https://www.youtube.com/@chan"
      (.raises (.exception "boom")) (.ok ())).2 = 1 := by decide

/-- C9 amended: `quit` is invoked exactly once on the paths where `scrape`
returns (success or error result, for any non-empty stripped URL), zero
times when `scrape` raises, and a failure inside the close operation is
always swallowed. -/
theorem youtube_quit_amended (url : String) (msg : Option String) (e : PyExc)
    (dq : Except PyExc Unit) :
    (scrape_youtube url (.returns msg) dq).2 =
      (if pyStripStr url = "" then 0 else 1)
    ∧ (scrape_youtube url (.raises e) dq).2 = 0
    ∧ youtubeQuit dq = .ok () := by
  refine ⟨?_, ?_, ?_⟩
  · unfold scrape_youtube
    by_cases hu : pyStripStr url = ""
    · rw [if_pos hu, if_pos hu]
    · rw [if_neg hu, if_neg hu]
      cases hq : youtubeQuit dq with
      | ok u =>
        cases msg with
        | none => simp [hq]
        | some m =>
          simp only [hq]
          split <;> rfl
      | error e2 =>
        cases dq <;> simp [youtubeQuit] at hq
  · unfold scrape_youtube
    split <;> rfl
  · cases dq <;> rfl

/-! ## Engagement computation:
`InstagramClientV2.calculate_engagement_rate` -/

/-- Python scalar as stored under `likesCount`/`commentsCount`: an `int`
(`bool` counts as `int` with value 0 or 1) or any other value, of which
only the truthiness matters to the code. -/
inductive PyScalar where
  | pint (n : Int)
  | pother (truthy : Bool)
deriving DecidableEq, Repr

/-- Effect of `post.get(key, 0) or 0`: a missing key or falsy value
becomes the `int` 0; anything else is kept. -/
def orZero : Option PyScalar → PyScalar
  | none => .pint 0
  | some (.pint n) => .pint n
  | some (.pother t) => if t then .pother t else .pint 0

/-- Python `isinstance(x, int)` on the modelled scalars. -/
def isIntScalar : PyScalar → Bool
  | .pint _ => true
  | .pother _ => false

/-- Numeric value of an `int` scalar (unused for non-ints). -/
def scalarVal : PyScalar → Int
  | .pint n => n
  | .pother _ => 0

/-- One Instagram post record, restricted to the fields the engagement
computation reads. -/
structure PostData where
  likesCount : Option PyScalar := none
  commentsCount : Option PyScalar := none
deriving DecidableEq, Repr

/-- Validity test of the loop body: both `likes` and `comments` (after the
`or 0` defaulting) are `int`s. -/
def validPost (p : PostData) : Bool :=
  isIntScalar (orZero p.likesCount) && isIntScalar (orZero p.commentsCount)

/-- Contribution `likes + comments` of one valid post. -/
def postEngagement (p : PostData) : Int :=
  scalarVal (orZero p.likesCount) + scalarVal (orZero p.commentsCount)

/-- Loop body accumulating `(total_engagement, valid_posts)`. -/
def engStep (acc : Int × Nat) (p : PostData) : Int × Nat :=
  if validPost p then (acc.1 + postEngagement p, acc.2 + 1) else acc

/-- Round half to even (Python `round`), on exact rationals. -/
def roundHalfEven (x : ℚ) : ℤ :=
  if x - ⌊x⌋ < 1/2 then ⌊x⌋
  else if (1:ℚ)/2 < x - ⌊x⌋ then ⌊x⌋ + 1
  else if ⌊x⌋ % 2 = 0 then ⌊x⌋ else ⌊x⌋ + 1

/-- Python `round(x, 4)` on exact rationals. -/
def round4 (x : ℚ) : ℚ := (roundHalfEven (x * 10000) : ℚ) / 10000

/-- Model of `InstagramClientV2.calculate_engagement_rate`
(`instagram_client_v2.py` lines 251-284): early 0.0 for an empty posts
list or zero followers; accumulate likes+comments over posts whose two
counters are `int`s; 0.0 when no post is valid; otherwise the average
engagement over the followers count times 100, rounded to 4 decimals. -/
def calculate_engagement_rate (posts : List PostData) (followers : Int) : ℚ :=
  if posts = [] ∨ followers = 0 then 0
  else if (posts.foldl engStep (0, 0)).2 = 0 then 0
  else
    round4 ((((posts.foldl engStep (0, 0)).1 : ℚ) /
      ((posts.foldl engStep (0, 0)).2 : ℚ)) / (followers : ℚ) * 100)

/-- Helper: the fold computes the sum of contributions and the count of
the valid posts. -/
theorem engagementFold_eq (posts : List PostData) :
    ∀ init : Int × Nat,
      posts.foldl engStep init =
        (init.1 + ((posts.filter validPost).map postEngagement).sum,
         init.2 + (posts.filter validPost).length) := by
  induction posts with
  | nil => intro init; simp
  | cons p t ih =>
    intro init
    rw [List.foldl_cons, ih (engStep init p)]
    cases hv : validPost p with
    | true =>
      simp only [engStep, hv, if_true, List.filter_cons_of_pos hv,
        List.map_cons, List.sum_cons, List.length_cons]
      refine Prod.ext ?_ ?_
      · simp; omega
      · simp; omega
    | false =>
      simp only [engStep, hv, List.filter_cons_of_neg]
      simp [hv]

/-- C10: the engagement computation is total, never divides by zero, and
equals 0 when the posts list is empty, the followers count is 0 or no post
has two integer counters; otherwise it is the mean of likes+comments over
the valid posts, divided by the followers count, times 100, rounded to 4
decimal places. -/
theorem engagement_rate_cases (posts : List PostData) (followers : Int) :
    calculate_engagement_rate posts followers =
      if posts = [] ∨ followers = 0 ∨ (posts.filter validPost).length = 0
      then 0
      else
        round4 (((((posts.filter validPost).map postEngagement).sum : ℚ) /
          ((posts.filter validPost).length : ℚ)) / (followers : ℚ) * 100) := by
  unfold calculate_engagement_rate
  have hf : posts.foldl engStep (0, 0) =
      (((posts.filter validPost).map postEngagement).sum,
       (posts.filter validPost).length) := by
    rw [engagementFold_eq posts (0, 0)]
    simp
  rw [hf]
  by_cases h1 : posts = [] ∨ followers = 0
  · rw [if_pos h1, if_pos (by tauto)]
  · rw [if_neg h1]
    by_cases h2 : (posts.filter validPost).length = 0
    · rw [if_pos h2, if_pos (by tauto)]
    · rw [if_neg h2, if_neg (by tauto)]

/-! ## Aggregation orchestrator: `InstagramScraper.scrape`

The result schema is the pydantic model family of `app/models/instagram.py`.
Python `Dict[str, Any]` fields are modelled as association lists of string
pairs, which covers every value the orchestrator actually stores in them. -/

/-- Section `ProfileAndPresence`: `current_followers` and `total_posts`
are required (declared `Field(...)`); the optional analytics fields default
to `None`. -/
structure ProfileAndPresence where
  current_followers : Int
  total_posts : Int
  follower_growth : Option ℚ := none
  quality_estimate : Option String := none
deriving DecidableEq, Repr

/-- Section `FrequencyAndActivity` (both fields required). -/
structure FrequencyAndActivity where
  posting_frequency : List (String × String)
  content_statistics : List (String × String)
deriving DecidableEq, Repr

/-- Section `KPIAndPerformance`: the four required numeric fields; the
many optional fields default to `None` and are omitted from the model. -/
structure KPIAndPerformance where
  engagement_rate : ℚ
  avg_likes_per_post : ℚ
  avg_comments_per_post : ℚ
  avg_interactions_per_post : ℚ
deriving DecidableEq, Repr

/-- Section `ContentAndFormat` (all fields required). -/
structure ContentAndFormat where
  content_types : List (String × String)
  creative_analysis : String
  best_content : List (List (String × String))
deriving DecidableEq, Repr

/-- Section `InstagramToneOfVoice` (`tone` required, a categorical
label). -/
structure InstagramToneOfVoice where
  tone : String
deriving DecidableEq, Repr

/-- Section `TrendsAndHashtags` (all fields required). -/
structure TrendsAndHashtags where
  active_trends : Bool
  effective_formats : Bool
  hashtag_analysis : String
deriving DecidableEq, Repr

/-- Section `InstagramFunnelAndObjectives` (both fields required). -/
structure InstagramFunnelAndObjectives where
  profile_objective : String
  brand_ambassadors : Bool
deriving DecidableEq, Repr

/-- Assembled result `InstagramScrapingResult`. -/
structure InstagramScrapingResult where
  username : String
  scraping_date : String
  profile_presence : ProfileAndPresence
  frequency_activity : FrequencyAndActivity
  kpi_performance : KPIAndPerformance
  content_format : ContentAndFormat
  tone_of_voice : InstagramToneOfVoice
  trends_hashtags : TrendsAndHashtags
  funnel_objectives : InstagramFunnelAndObjectives
  error_message : Option String := none
deriving DecidableEq, Repr

/-- Fallback section objects built in `instagram.py` lines 47-112 when the
corresponding analysis task raised. -/
def presenceFallback : ProfileAndPresence :=
  { current_followers := 0, total_posts := 0 }

/-- Fallback for the frequency section. -/
def frequencyFallback : FrequencyAndActivity :=
  { posting_frequency :=
      [("post", "mai"), ("reel", "mai"), ("stories", "non_disponibile"),
       ("live", "non_disponibile")]
    content_statistics :=
      [("note", "Dati non disponibili a causa di errore")] }

/-- Fallback for the KPI section. -/
def kpiFallback : KPIAndPerformance :=
  { engagement_rate := 0, avg_likes_per_post := 0,
    avg_comments_per_post := 0, avg_interactions_per_post := 0 }

/-- Fallback for the content section. -/
def contentFallback : ContentAndFormat :=
  { content_types := [("note", "Dati non disponibili a causa di errore")]
    creative_analysis := "minimal"
    best_content := [] }

/-- Fallback for the tone section: the neutral label. -/
def toneFallback : InstagramToneOfVoice := { tone := "professionale" }

/-- Fallback for the trends section. -/
def trendsFallback : TrendsAndHashtags :=
  { active_trends := false, effective_formats := false,
    hashtag_analysis := "Dati non disponibili a causa di errore" }

/-- Fallback for the funnel section. -/
def funnelFallback : InstagramFunnelAndObjectives :=
  { profile_objective := "awareness", brand_ambassadors := false }

/-- Outcomes of the seven analysis tasks gathered with
`return_exceptions=True`: each entry is either the section the task built
or the exception it raised. -/
structure TaskOutcomes where
  presence : Except PyExc ProfileAndPresence
  frequency : Except PyExc FrequencyAndActivity
  kpi : Except PyExc KPIAndPerformance
  content : Except PyExc ContentAndFormat
  tone : Except PyExc InstagramToneOfVoice
  trends : Except PyExc TrendsAndHashtags
  funnel : Except PyExc InstagramFunnelAndObjectives

/-- Pattern `results[i] if not isinstance(results[i], Exception) else
fallback`. -/
def orFallback {α : Type} (r : Except PyExc α) (d : α) : α :=
  match r with
  | .ok v => v
  | .error _ => d

/-- Construction `InstagramScrapingResult(username=..., scraping_date=...,
error_message=...)` on the acquisition-failure path of
`InstagramScraper.scrape` (lines 131-135).  In `app/models/instagram.py`
lines 136-156, each of the seven omitted section fields carries
`default_factory=<SectionClass>`, and every section class has required
fields declared with `Field(...)`.  Pydantic therefore calls, e.g.,
`ProfileAndPresence()` with no arguments, which raises
`pydantic.ValidationError` (`current_followers` and `total_posts` are
missing); the construction never produces a value, so the error branch
re-raises instead of returning. -/
def mkErrorResult (username date : String) (msg : String) :
    Except PyExc InstagramScrapingResult :=
  .error (.validationError
    "validation errors for InstagramScrapingResult: fields required")

/-- Model of `InstagramScraper.scrape` (`instagram.py` lines 26-135),
parameterised by the acquisition outcome (the awaited
`get_complete_profile_data`) and the seven task outcomes computed from the
acquired snapshot.  The second component counts how many analysis tasks
were invoked. -/
def scrapeInstagram {σ : Type} (username date : String)
    (acq : Except PyExc σ) (tasks : σ → TaskOutcomes) :
    Except PyExc InstagramScrapingResult × Nat :=
  match acq with
  | .error e => (mkErrorResult username date (pyExcMsg e), 0)
  | .ok snap =>
    (.ok
      { username := username
        scraping_date := date
        profile_presence := orFallback (tasks snap).presence presenceFallback
        frequency_activity :=
          orFallback (tasks snap).frequency frequencyFallback
        kpi_performance := orFallback (tasks snap).kpi kpiFallback
        content_format := orFallback (tasks snap).content contentFallback
        tone_of_voice := orFallback (tasks snap).tone toneFallback
        trends_hashtags := orFallback (tasks snap).trends trendsFallback
        funnel_objectives := orFallback (tasks snap).funnel funnelFallback
        error_message := none }, 7)

/-- C7 evaluation: on the acquisition-failure path no analysis task is
invoked, but the error result cannot be constructed — the section default
factories raise `ValidationError`, so `scrape` raises instead of returning
the identifier/timestamp/error record claimed.  On the success path with
the tone task raising, the tone section is the documented default
"professionale" and every sibling section is the task's own result, with
no error message. -/
theorem orchestrator_paths_evaluated {σ : Type} (username date : String)
    (e : PyExc) (tasks : σ → TaskOutcomes) (snap : σ)
    (p : ProfileAndPresence) (f : FrequencyAndActivity)
    (k : KPIAndPerformance) (c : ContentAndFormat) (tr : TrendsAndHashtags)
    (fu : InstagramFunnelAndObjectives) (te : PyExc) :
    (scrapeInstagram username date (.error e : Except PyExc σ) tasks).2 = 0
    ∧ (scrapeInstagram username date (.error e : Except PyExc σ) tasks).1 =
      .error (.validationError
        "validation errors for InstagramScrapingResult: fields required")
    ∧ (scrapeInstagram username date (.ok snap)
        (fun _ => ⟨.ok p, .ok f, .ok k, .ok c, .error te, .ok tr, .ok fu⟩)) =
      (.ok ⟨username, date, p, f, k, c, toneFallback, tr, fu, none⟩, 7)
    ∧ toneFallback.tone = "professionale" :=
  ⟨rfl, rfl, rfl, rfl⟩

end YTAP
